import Mathlib

/-!
Shallow embedding of the navigation/state-synchronization mechanic of
`src/projeto1/front/front-react/src/App.jsx` (App, CustomNavBar,
GenerateCardGrid) and of the Upload form's submit handler.

Modelling conventions:
* React state is gathered into explicit state records; every event handler
  becomes a pure state-to-state function.
* The `useEffect` of `GenerateCardGrid` has dependency list
  `[forcedFormTitle]`; React re-runs it exactly when that value changes
  (`Object.is` comparison), so the embedding runs the effect body exactly
  when the stored `forceTitle` changes. On mount the effect runs once with
  `forcedFormTitle = null` and `selected = null`, which is a no-op, so the
  initial state needs no separate effect pass.
* "Emission" means a call of the `onFormOpenChange` callback that
  `GenerateCardGrid` receives from `App` (wired to `setFormOpen`); the
  embedding logs each such call in an `emissions` list. The direct
  `setFormOpen(false)` inside `App.handleNavigate` is the parent writing its
  own state, not an emission from the Form Host, and is not logged.
* JavaScript truthiness of the string-or-null `forcedFormTitle` is modelled
  by `strTruthy`: `null` and the empty string are falsy, every other string
  is truthy.
* The `icon` field of the menu cards is a React element with no behavioural
  role and is omitted from the `Card` record.
-/

namespace PdfTools

/-- A menu card, from the `menuCards` array of `CardGrid.jsx`
(`{ id, icon, title, description }` with the purely visual `icon` dropped). -/
structure Card where
  id : Nat
  title : String
  description : String
  deriving DecidableEq, Repr

def downloadCard : Card := ⟨1, "DOWNLOAD", "Baixe um PDF existente pelo UUID."⟩

def uploadCard : Card := ⟨2, "UPLOAD", "Envie um PDF e gere UUID."⟩

def mergeCard : Card := ⟨3, "MERGE", "Mescle dois PDFs em um único arquivo."⟩

def splitCard : Card := ⟨4, "SPLIT", "Extraia páginas específicas de um PDF."⟩

/-- The static `menuCards` array of `CardGrid.jsx`. -/
def menuCards : List Card := [downloadCard, uploadCard, mergeCard, splitCard]

/-- `menuCards.find((c) => c.title === forcedFormTitle)` from the grid's
synchronization effect. -/
def findCard (t : String) : Option Card :=
  menuCards.find? fun c => c.title = t

/-- JavaScript truthiness of the string-or-null `forcedFormTitle`:
`null` and `""` are falsy, any other string is truthy. -/
def strTruthy : Option String → Bool
  | none => false
  | some t => t != ""

/-- Combined state of `App` (`formOpen`, `forceTitle`) and
`GenerateCardGrid` (`selected`), plus the log of `onFormOpenChange`
emissions from the grid to the parent. -/
structure SyncState where
  formOpen : Bool
  forceTitle : Option String
  selected : Option Card
  emissions : List Bool
  deriving DecidableEq, Repr

/-- Initial state: `useState(false)`, `useState(null)`, `useState(null)`. -/
def syncInit : SyncState := ⟨false, none, none, []⟩

/-- The `else` branch of the grid's synchronization effect:
`if (selected) { setSelected(null); onFormOpenChange(false); }`. -/
def clearIfOpen (s : SyncState) : SyncState :=
  match s.selected with
  | some _ => { s with selected := none, formOpen := false, emissions := s.emissions ++ [false] }
  | none => s

/-- Body of the grid's `useEffect` (lines 318-331 of `App.jsx`): on a truthy
`forcedFormTitle`, look the title up in `menuCards` and, when found, select
the card and emit `true`; on a falsy title, clear the selection (emitting
`false`) only if a card was selected. -/
def runEffect (s : SyncState) : SyncState :=
  if strTruthy s.forceTitle then
    match findCard (s.forceTitle.getD "") with
    | some card => { s with selected := some card, formOpen := true, emissions := s.emissions ++ [true] }
    | none => s
  else clearIfOpen s

/-- `App.handleNavigate` (lines 11-18): `HOME` clears `forceTitle` and the
`formOpen` flag; any other key is stored in `forceTitle`. -/
def handleNavigate (s : SyncState) (key : String) : SyncState :=
  if key = "HOME" then { s with forceTitle := none, formOpen := false }
  else { s with forceTitle := some key }

/-- A navigation click (`select(key)` in the spec): run `handleNavigate`,
then run the grid's synchronization effect exactly when its dependency
`forcedFormTitle` changed value. -/
def selectEv (s : SyncState) (key : String) : SyncState :=
  let t := handleNavigate s key
  if t.forceTitle = s.forceTitle then t else runEffect t

/-- `GenerateCardGrid.openCard` (lines 333-336): direct card click;
the effect does not re-run since `forcedFormTitle` is unchanged. -/
def openCard (s : SyncState) (card : Card) : SyncState :=
  { s with selected := some card, formOpen := true, emissions := s.emissions ++ [true] }

/-- `GenerateCardGrid.back` (lines 337-340). -/
def backEv (s : SyncState) : SyncState :=
  { s with selected := none, formOpen := false, emissions := s.emissions ++ [false] }

/-- External events of the navigation mechanic. -/
inductive NavEv where
  | select (key : String)
  | openCard (card : Card)
  | back
  deriving DecidableEq, Repr

def navStep (s : SyncState) (e : NavEv) : SyncState :=
  match e with
  | .select key => selectEv s key
  | .openCard card => openCard s card
  | .back => backEv s

/-- Run a sequence of navigation events from the initial state. -/
def navRun (evs : List NavEv) : SyncState := evs.foldl navStep syncInit

/-- The closed `ViewKey` enumeration of the spec; these are exactly the keys
`CustomNavBar` passes to `onNavigate`. -/
inductive ViewKey where
  | HOME
  | UPLOAD
  | DOWNLOAD
  | MERGE
  | SPLIT
  deriving DecidableEq, Repr

def keyStr : ViewKey → String
  | .HOME => "HOME"
  | .UPLOAD => "UPLOAD"
  | .DOWNLOAD => "DOWNLOAD"
  | .MERGE => "MERGE"
  | .SPLIT => "SPLIT"

/-- The navigation signal value stored by `handleNavigate` for a `ViewKey`. -/
def navSig : ViewKey → Option String
  | .HOME => none
  | k => some (keyStr k)

def selectK (s : SyncState) (k : ViewKey) : SyncState := selectEv s (keyStr k)

/-- Run a sequence of `select` clicks with keys from the `ViewKey`
enumeration, starting at the initial state. -/
def selRun (ks : List ViewKey) : SyncState := ks.foldl selectK syncInit

/-- The most recent element of a sequence of keys, if any. -/
def lastKey : List ViewKey → Option ViewKey
  | [] => none
  | [k] => some k
  | _ :: t => lastKey t

/-- Grid/controller relation maintained by `select` clicks: the selected
card is exactly the stored navigation signal resolved through `menuCards`. -/
def SelInv (s : SyncState) : Prop := s.selected = s.forceTitle.bind findCard

/-!
Embedding of the Upload form (`UploadForm` in `CardGrid.jsx`, lines
172-204). Its React state is `file`, `uuid`, `err`, `loading`; the
embedding adds a `requests` counter instrumenting how many
`api.post("/upload", ...)` calls have been issued. A chosen file is
modelled by its name; the network response by
`Except (Option String) String` (`.ok data.uuid`, or `.error` carrying
`e.response?.data?.detail`, which the optional chain may leave absent).
-/

/-- State of `UploadForm`, plus the count of issued `/upload` requests. -/
structure UploadState where
  file : Option String
  uuid : String
  err : String
  loading : Bool
  requests : Nat
  deriving DecidableEq, Repr

/-- Initial `UploadForm` state: `useState(null)`, `useState("")`,
`useState("")`, `useState(false)`. -/
def uploadInit : UploadState := ⟨none, "", "", false, 0⟩

/-- JavaScript `d || fb` for an optional string `d`: falsy (`undefined`,
`null` or `""`) falls back to `fb`. -/
def jsOrElse (d : Option String) (fb : String) : String :=
  match d with
  | some t => if t = "" then fb else t
  | none => fb

/-- Synchronous prefix of `UploadForm.handleSubmit` (lines 178-184): clear
`err` and `uuid`; with no file, set the validation message and return
without any network activity; otherwise set `loading` and issue the
`api.post("/upload", fd)` request (counted in `requests`). -/
def handleSubmitStart (s : UploadState) : UploadState :=
  let s0 := { s with err := "", uuid := "" }
  match s0.file with
  | none => { s0 with err := "Selecione um PDF" }
  | some _ => { s0 with loading := true, requests := s0.requests + 1 }

/-- Completion of `UploadForm.handleSubmit` (lines 184-188): a success
response stores `data.uuid`; a failure stores
`e.response?.data?.detail || "Erro no upload"`; `finally` clears
`loading` in both cases. -/
def handleSubmitFinish (s : UploadState) (r : Except (Option String) String) : UploadState :=
  match r with
  | .ok u => { s with uuid := u, loading := false }
  | .error d => { s with err := jsOrElse d "Erro no upload", loading := false }

/-- External events of the Upload form: choosing a file
(`onChange={e=>setFile(e.target.files[0])}`), a submit event of the form,
and the arrival of the network response. -/
inductive UploadEv where
  | setFile (f : Option String)
  | submit
  | response (r : Except (Option String) String)

/-- One event step. A submit event while `loading` is true is discarded:
the form's only submit button carries `disabled={loading}` (line 198), so
neither a click nor implicit submission can fire the handler then. A
response event while `loading` is false has no pending request to finish
and is discarded. -/
def uploadStep (s : UploadState) (e : UploadEv) : UploadState :=
  match e with
  | .setFile f => { s with file := f }
  | .submit => if s.loading then s else handleSubmitStart s
  | .response r => if s.loading then handleSubmitFinish s r else s

/-- Run a sequence of Upload-form events from the initial state. -/
def uploadRun (evs : List UploadEv) : UploadState := evs.foldl uploadStep uploadInit

/-- Display invariant of the Upload form: the success alert (`uuid`) and the
error alert (`err`) are never both non-empty, and while a request is in
flight both are empty. -/
def UploadInv (s : UploadState) : Prop :=
  (s.uuid = "" ∨ s.err = "") ∧ (s.loading = true → s.uuid = "" ∧ s.err = "")

/-! Helper lemmas about the synchronization mechanic. -/

theorem runEffect_forceTitle (s : SyncState) : (runEffect s).forceTitle = s.forceTitle := by
  unfold runEffect clearIfOpen
  split <;> split <;> rfl

theorem handleNavigate_forceTitle (s : SyncState) (key : String) :
    (handleNavigate s key).forceTitle = if key = "HOME" then none else some key := by
  unfold handleNavigate
  split <;> rfl

theorem handleNavigate_emissions (s : SyncState) (key : String) :
    (handleNavigate s key).emissions = s.emissions := by
  unfold handleNavigate
  split <;> rfl

theorem selectEv_forceTitle (s : SyncState) (key : String) :
    (selectEv s key).forceTitle = if key = "HOME" then none else some key := by
  unfold selectEv
  dsimp only
  split
  · exact handleNavigate_forceTitle s key
  · rw [runEffect_forceTitle, handleNavigate_forceTitle]

theorem clearIfOpen_selected (s : SyncState) : (clearIfOpen s).selected = none := by
  unfold clearIfOpen
  split
  · rfl
  · assumption

theorem clearIfOpen_formOpen (s : SyncState) (h : s.formOpen = false) :
    (clearIfOpen s).formOpen = false := by
  unfold clearIfOpen
  split
  · rfl
  · exact h

theorem selectEv_home_formOpen (s : SyncState) : (selectEv s "HOME").formOpen = false := by
  unfold selectEv handleNavigate
  rw [if_pos rfl]
  dsimp only
  split
  · rfl
  · unfold runEffect
    rw [if_neg (by simp [strTruthy])]
    exact clearIfOpen_formOpen _ rfl

theorem selectEv_home_selected (s : SyncState) (h : SelInv s) :
    (selectEv s "HOME").selected = none := by
  unfold selectEv handleNavigate
  rw [if_pos rfl]
  dsimp only
  split
  · rename_i heq
    have h0 : s.forceTitle = none := heq.symm
    rw [SelInv, h0] at h
    exact h
  · unfold runEffect
    rw [if_neg (by simp [strTruthy])]
    exact clearIfOpen_selected _

theorem syncext (x : SyncState) (o : Option String) (b : Bool)
    (h1 : x.forceTitle = o) (h2 : x.formOpen = b) :
    ({ x with forceTitle := o, formOpen := b } : SyncState) = x := by
  cases x
  simp_all

theorem syncext2 (x : SyncState) (o : Option String) (h1 : x.forceTitle = o) :
    ({ x with forceTitle := o } : SyncState) = x := by
  cases x
  simp_all

theorem selectEv_fix (s : SyncState) (key : String) (h : handleNavigate s key = s) :
    selectEv s key = s := by
  simp [selectEv, h]

theorem selectEv_idem (s : SyncState) (key : String) :
    selectEv (selectEv s key) key = selectEv s key := by
  by_cases hk : key = "HOME"
  · subst hk
    have h1 : (selectEv s "HOME").forceTitle = none := by
      rw [selectEv_forceTitle, if_pos rfl]
    apply selectEv_fix
    unfold handleNavigate
    rw [if_pos rfl]
    exact syncext _ _ _ h1 (selectEv_home_formOpen s)
  · have h1 : (selectEv s key).forceTitle = some key := by
      rw [selectEv_forceTitle, if_neg hk]
    apply selectEv_fix
    unfold handleNavigate
    rw [if_neg hk]
    exact syncext2 _ _ h1

theorem runEffect_emissions_le (s : SyncState) :
    (runEffect s).emissions.length ≤ s.emissions.length + 1 := by
  unfold runEffect clearIfOpen
  split <;> split <;> simp

theorem selectEv_emissions_le (s : SyncState) (key : String) :
    (selectEv s key).emissions.length ≤ s.emissions.length + 1 := by
  unfold selectEv
  dsimp only
  split
  · rw [handleNavigate_emissions]
    exact Nat.le_succ _
  · calc (runEffect (handleNavigate s key)).emissions.length
        ≤ (handleNavigate s key).emissions.length + 1 := runEffect_emissions_le _
    _ = s.emissions.length + 1 := by rw [handleNavigate_emissions]

theorem selectEv_known_selected (s : SyncState) (t : String) (ht : ¬(t = "HOME"))
    (hne : ¬(t = "")) (c : Card) (hc : findCard t = some c) (h : SelInv s) :
    (selectEv s t).selected = some c := by
  unfold selectEv handleNavigate
  rw [if_neg ht]
  dsimp only
  split
  · rename_i heq
    show s.selected = some c
    rw [SelInv] at h
    rw [h, ← heq]
    exact hc
  · unfold runEffect
    rw [if_pos (by simp [strTruthy, hne])]
    rw [show ((some t).getD "") = t from rfl, hc]

theorem selectK_inv (s : SyncState) (k : ViewKey) (h : SelInv s) : SelInv (selectK s k) := by
  cases k with
  | HOME =>
    simp only [selectK, keyStr]
    rw [SelInv, selectEv_home_selected s h, selectEv_forceTitle, if_pos rfl]
    rfl
  | UPLOAD =>
    simp only [selectK, keyStr]
    rw [SelInv, selectEv_known_selected s "UPLOAD" (by decide) (by decide) uploadCard (by decide) h,
      selectEv_forceTitle, if_neg (by decide)]
    decide
  | DOWNLOAD =>
    simp only [selectK, keyStr]
    rw [SelInv, selectEv_known_selected s "DOWNLOAD" (by decide) (by decide) downloadCard (by decide) h,
      selectEv_forceTitle, if_neg (by decide)]
    decide
  | MERGE =>
    simp only [selectK, keyStr]
    rw [SelInv, selectEv_known_selected s "MERGE" (by decide) (by decide) mergeCard (by decide) h,
      selectEv_forceTitle, if_neg (by decide)]
    decide
  | SPLIT =>
    simp only [selectK, keyStr]
    rw [SelInv, selectEv_known_selected s "SPLIT" (by decide) (by decide) splitCard (by decide) h,
      selectEv_forceTitle, if_neg (by decide)]
    decide

theorem selectK_forceTitle (s : SyncState) (k : ViewKey) :
    (selectK s k).forceTitle = navSig k := by
  cases k <;> rw [selectK, keyStr, selectEv_forceTitle] <;> simp [navSig, keyStr]

theorem selRunAux (ks : List ViewKey) (s : SyncState) (h : SelInv s) :
    SelInv (ks.foldl selectK s) ∧
      (ks.foldl selectK s).forceTitle = ks.foldl (fun _ k => navSig k) s.forceTitle := by
  induction ks generalizing s with
  | nil => exact ⟨h, rfl⟩
  | cons k t ih =>
    simp only [List.foldl_cons]
    obtain ⟨ih1, ih2⟩ := ih (selectK s k) (selectK_inv s k h)
    exact ⟨ih1, by rw [ih2, selectK_forceTitle]⟩

theorem lastKey_cons_ne (k : ViewKey) (t : List ViewKey) : ¬(lastKey (k :: t) = none) := by
  induction t generalizing k with
  | nil => simp [lastKey]
  | cons k2 t2 ih =>
    show ¬(lastKey (k2 :: t2) = none)
    exact ih k2

theorem sigFold_last (a : Option String) (ks : List ViewKey) :
    ks.foldl (fun _ k => navSig k) a =
      match lastKey ks with
      | none => a
      | some k => navSig k := by
  induction ks generalizing a with
  | nil => rfl
  | cons k t ih =>
    cases t with
    | nil => rfl
    | cons k2 t2 =>
      rw [List.foldl_cons, ih (navSig k)]
      cases hl : lastKey (k2 :: t2) with
      | none => exact absurd hl (lastKey_cons_ne k2 t2)
      | some x =>
        have hl2 : lastKey (k :: k2 :: t2) = some x := hl
        rw [hl2]

/-! Helper lemmas about the Upload form. -/

theorem jsOrElse_ne (d : Option String) (fb : String) (h : ¬(fb = "")) :
    ¬(jsOrElse d fb = "") := by
  unfold jsOrElse
  cases d with
  | none => exact h
  | some t =>
    by_cases ht : t = ""
    · simp [ht, h]
    · simp [ht]

theorem uploadStep_inv (s : UploadState) (e : UploadEv) (h : UploadInv s) :
    UploadInv (uploadStep s e) := by
  obtain ⟨file, uuid, err, loading, requests⟩ := s
  obtain ⟨h1, h2⟩ := h
  cases e with
  | setFile f => exact ⟨h1, h2⟩
  | submit =>
    cases loading with
    | true => exact ⟨h1, h2⟩
    | false =>
      show UploadInv (handleSubmitStart ⟨file, uuid, err, false, requests⟩)
      unfold handleSubmitStart
      cases file with
      | none => exact ⟨Or.inl rfl, fun hh => nomatch hh⟩
      | some f => exact ⟨Or.inl rfl, fun _ => ⟨rfl, rfl⟩⟩
  | response r =>
    cases loading with
    | false => exact ⟨h1, h2⟩
    | true =>
      obtain ⟨hu, he⟩ := h2 rfl
      show UploadInv (handleSubmitFinish ⟨file, uuid, err, true, requests⟩ r)
      unfold handleSubmitFinish
      cases r with
      | ok u => exact ⟨Or.inr he, fun hh => nomatch hh⟩
      | error d => exact ⟨Or.inl hu, fun hh => nomatch hh⟩

theorem uploadFoldl_inv (l : List UploadEv) (s : UploadState) (h : UploadInv s) :
    UploadInv (l.foldl uploadStep s) := by
  induction l generalizing s with
  | nil => exact h
  | cons e t ih => exact ih _ (uploadStep_inv s e h)

theorem uploadRun_inv (evs : List UploadEv) : UploadInv (uploadRun evs) :=
  uploadFoldl_inv evs uploadInit ⟨Or.inl rfl, fun _ => ⟨rfl, rfl⟩⟩

/-! Claim theorems. -/

/-- C1: the claimed invariant — `selected` non-absent iff `formOpen` is true
after every synchronization pass — is violated by the code: after opening
the Split card directly and then navigating `HOME` while the navigation
signal was already absent, the settled state has a selected card while the
parent's `formOpen` flag is false (the grid effect never re-ran because its
dependency `forcedFormTitle` stayed `null`). -/
theorem c1_openform_parent_desync :
    ((navRun [NavEv.openCard splitCard, NavEv.select "HOME"]).selected).isSome = true ∧
    (navRun [NavEv.openCard splitCard, NavEv.select "HOME"]).formOpen = false := by
  decide

/-- C2: in the code, `openDirect(SplitDescriptor)` with an absent signal
does open the Split form, but the subsequent `select(HOME)` does not return
the Form Host to `MENU` and emits nothing: the selected card stays the
Split card and the emission log still holds only the original `open`. -/
theorem c2_openDirect_then_home :
    (navRun [NavEv.openCard splitCard]).selected = some splitCard ∧
    (navRun [NavEv.openCard splitCard]).emissions = [true] ∧
    (navRun [NavEv.openCard splitCard, NavEv.select "HOME"]).selected = some splitCard ∧
    (navRun [NavEv.openCard splitCard, NavEv.select "HOME"]).emissions = [true] := by
  decide

/-- C3: for every finite sequence of `select(k)` calls with keys from the
`ViewKey` enumeration, after the reactions settle the selected card is
absent iff the sequence is empty or its most recent key is `HOME`, and
otherwise it is the card resolved from the most recent (non-`HOME`) key. -/
theorem c3_select_sequences (ks : List ViewKey) :
    ((selRun ks).selected = none ↔ lastKey ks = none ∨ lastKey ks = some ViewKey.HOME) ∧
    (∀ k : ViewKey, lastKey ks = some k → ¬(k = ViewKey.HOME) →
      (selRun ks).selected = findCard (keyStr k)) := by
  unfold selRun
  obtain ⟨hinv, hft⟩ := selRunAux ks syncInit rfl
  rw [sigFold_last] at hft
  rw [SelInv] at hinv
  cases hl : lastKey ks with
  | none =>
    rw [hl] at hft
    constructor
    · rw [hinv, hft]
      decide
    · intro k hk hkh
      exact nomatch hk
  | some k0 =>
    rw [hl] at hft
    constructor
    · rw [hinv, hft]
      cases k0 <;> decide
    · intro k hk hkh
      injection hk with hk2
      subst hk2
      rw [hinv, hft]
      cases k0 with
      | HOME => exact absurd rfl hkh
      | UPLOAD => decide
      | DOWNLOAD => decide
      | MERGE => decide
      | SPLIT => decide

/-- Witness for C3 at the concrete sequence `[UPLOAD, MERGE]`. -/
theorem c3_select_sequences_w :
    (selRun [ViewKey.UPLOAD, ViewKey.MERGE]).selected = findCard (keyStr ViewKey.MERGE) :=
  (c3_select_sequences [ViewKey.UPLOAD, ViewKey.MERGE]).2 ViewKey.MERGE (by decide) (by decide)

/-- C4 counterexample: calling `select(HOME)` twice in a row from the
initial state produces zero emissions, not exactly one. -/
theorem c4_select_twice_cex :
    ¬((navRun [NavEv.select "HOME", NavEv.select "HOME"]).emissions.length = 1) ∧
    (navRun [NavEv.select "HOME", NavEv.select "HOME"]).emissions.length = 0 := by
  decide

/-- C4 (amended): `select(k)` is idempotent — calling it twice in a row
with the same key yields exactly the state (and emission log) of calling it
once, so the second call causes no state change and no further emission;
one call appends at most one emission. -/
theorem c4_select_idempotent (s : SyncState) (key : String) :
    selectEv (selectEv s key) key = selectEv s key ∧
    (selectEv s key).emissions.length ≤ s.emissions.length + 1 :=
  ⟨selectEv_idem s key, selectEv_emissions_le s key⟩

/-- C5 counterexample: the empty string is a non-absent signal value that
resolves to no card, yet the reaction to it closes an open form and emits
`false`, because JavaScript treats `""` as falsy in `if (forcedFormTitle)`. -/
theorem c5_unknown_key_cex :
    findCard "" = none ∧
    (navRun [NavEv.select "UPLOAD"]).selected = some uploadCard ∧
    (navRun [NavEv.select "UPLOAD", NavEv.select ""]).selected = none ∧
    (navRun [NavEv.select "UPLOAD", NavEv.select ""]).emissions = [true, false] := by
  decide

/-- C5 (amended): for every non-absent, non-empty signal value that
resolves to no card in `menuCards`, the grid's reaction is a total no-op:
it returns the state unchanged (no selection change, no emission). -/
theorem c5_unknown_key_noop (s : SyncState) (t : String) (h1 : s.forceTitle = some t)
    (h2 : ¬(t = "")) (h3 : findCard t = none) : runEffect s = s := by
  unfold runEffect
  rw [h1, if_pos (by simp [strTruthy, h2])]
  rw [show ((some t).getD "") = t from rfl, h3]

/-- Witness for C5 (amended) at the concrete unknown key "FOO". -/
theorem c5_unknown_key_noop_w :
    runEffect { syncInit with forceTitle := some "FOO" }
      = { syncInit with forceTitle := some "FOO" } :=
  c5_unknown_key_noop _ "FOO" rfl (by decide) (by decide)

/-- C6 counterexample: starting from a state where the Upload form is open,
`openDirect(mergeCard)` followed by `back()` yields `MENU`, not the Upload
form that was open before — `back()` always clears, it does not restore. -/
theorem c6_roundtrip_cex :
    ¬((backEv (openCard (navRun [NavEv.select "UPLOAD"]) mergeCard)).selected
      = (navRun [NavEv.select "UPLOAD"]).selected) := by
  decide

/-- C6 (amended): `back()` after `openDirect(d)` always yields the absent
state, so the round-trip restores the prior value exactly when that prior
value was `MENU` — which is the only state in which the card grid that can
invoke `openDirect` is rendered. -/
theorem c6_open_back_roundtrip (s : SyncState) (c : Card) :
    (backEv (openCard s c)).selected = none ∧
    (s.selected = none → (backEv (openCard s c)).selected = s.selected) := by
  refine ⟨rfl, ?_⟩
  intro h
  exact h.symm

/-- Witness for C6 (amended) from the initial (menu) state. -/
theorem c6_open_back_roundtrip_w :
    (backEv (openCard syncInit downloadCard)).selected = syncInit.selected :=
  (c6_open_back_roundtrip syncInit downloadCard).2 rfl

/-- C7: submitting the Upload form with no file selected sets the local
error to "Selecione um PDF", clears the result, and issues no network
request (the request counter and busy flag are untouched), so the request
error path is never taken. -/
theorem c7_upload_validation (s : UploadState) (h : s.file = none) :
    (handleSubmitStart s).err = "Selecione um PDF" ∧
    (handleSubmitStart s).uuid = "" ∧
    (handleSubmitStart s).requests = s.requests ∧
    (handleSubmitStart s).loading = s.loading := by
  obtain ⟨file, uuid, err, loading, requests⟩ := s
  subst h
  exact ⟨rfl, rfl, rfl, rfl⟩

/-- Witness for C7 at the initial Upload form state. -/
theorem c7_upload_validation_w :
    (handleSubmitStart uploadInit).err = "Selecione um PDF" ∧
    (handleSubmitStart uploadInit).uuid = "" ∧
    (handleSubmitStart uploadInit).requests = uploadInit.requests ∧
    (handleSubmitStart uploadInit).loading = uploadInit.loading :=
  c7_upload_validation uploadInit rfl

/-- C8: while a submission is in flight (`loading = true`), a further
submit event on the same form is discarded — the submit button is
`disabled={loading}` — so the state is unchanged and no second request is
issued. -/
theorem c8_busy_blocks_submit (s : UploadState) (h : s.loading = true) :
    uploadStep s UploadEv.submit = s ∧
    (uploadStep s UploadEv.submit).requests = s.requests := by
  have h1 : uploadStep s UploadEv.submit = s := by
    unfold uploadStep
    rw [if_pos h]
  exact ⟨h1, by rw [h1]⟩

/-- Witness for C8 at a concrete in-flight state. -/
theorem c8_busy_blocks_submit_w :
    uploadStep ⟨some "a.pdf", "", "", true, 1⟩ UploadEv.submit
      = (⟨some "a.pdf", "", "", true, 1⟩ : UploadState) :=
  (c8_busy_blocks_submit ⟨some "a.pdf", "", "", true, 1⟩ rfl).1

/-- C9 counterexample: a submission whose success response carries the
empty identifier completes (one request issued, no longer in flight) with
neither the success alert nor the error alert shown — `uuid` and `err` are
both empty — contradicting "on completion exactly one of the two is
shown". -/
theorem c9_completion_cex :
    (uploadRun [UploadEv.setFile (some "a.pdf"), UploadEv.submit,
      UploadEv.response (Except.ok "")]).requests = 1 ∧
    (uploadRun [UploadEv.setFile (some "a.pdf"), UploadEv.submit,
      UploadEv.response (Except.ok "")]).loading = false ∧
    (uploadRun [UploadEv.setFile (some "a.pdf"), UploadEv.submit,
      UploadEv.response (Except.ok "")]).uuid = "" ∧
    (uploadRun [UploadEv.setFile (some "a.pdf"), UploadEv.submit,
      UploadEv.response (Except.ok "")]).err = "" := by
  decide

/-- C9 (amended): in every reachable Upload form state at most one of
{result, error} is shown (never both), while a request is in flight both
are clear, a submission with a file present clears both exactly when it
issues its request, and a completion shows exactly one of the two —
the error alert on failure, the success alert on success — provided a
success response carries a non-empty identifier. -/
theorem c9_result_error_exclusive :
    (∀ evs : List UploadEv, (uploadRun evs).uuid = "" ∨ (uploadRun evs).err = "") ∧
    (∀ evs : List UploadEv, (uploadRun evs).loading = true →
      (uploadRun evs).uuid = "" ∧ (uploadRun evs).err = "") ∧
    (∀ s : UploadState, ¬(s.file = none) →
      handleSubmitStart s
        = { s with err := "", uuid := "", loading := true, requests := s.requests + 1 }) ∧
    (∀ (evs : List UploadEv) (d : Option String), (uploadRun evs).loading = true →
      ¬((uploadStep (uploadRun evs) (UploadEv.response (Except.error d))).err = "") ∧
      (uploadStep (uploadRun evs) (UploadEv.response (Except.error d))).uuid = "") ∧
    (∀ (evs : List UploadEv) (u : String), (uploadRun evs).loading = true → ¬(u = "") →
      (uploadStep (uploadRun evs) (UploadEv.response (Except.ok u))).uuid = u ∧
      (uploadStep (uploadRun evs) (UploadEv.response (Except.ok u))).err = "") := by
  refine ⟨?_, ?_, ?_, ?_, ?_⟩
  · intro evs
    exact (uploadRun_inv evs).1
  · intro evs h
    exact (uploadRun_inv evs).2 h
  · intro s hf
    obtain ⟨file, uuid, err, loading, requests⟩ := s
    cases file with
    | none => exact absurd rfl hf
    | some f => rfl
  · intro evs d h
    obtain ⟨hu, he⟩ := (uploadRun_inv evs).2 h
    constructor
    · have h2 : (uploadStep (uploadRun evs) (UploadEv.response (Except.error d))).err
          = jsOrElse d "Erro no upload" := by
        simp [uploadStep, h, handleSubmitFinish]
      rw [h2]
      exact jsOrElse_ne d _ (by decide)
    · have h2 : (uploadStep (uploadRun evs) (UploadEv.response (Except.error d))).uuid
          = (uploadRun evs).uuid := by
        simp [uploadStep, h, handleSubmitFinish]
      rw [h2]
      exact hu
  · intro evs u h hu0
    obtain ⟨hu, he⟩ := (uploadRun_inv evs).2 h
    constructor
    · simp [uploadStep, h, handleSubmitFinish]
    · have h2 : (uploadStep (uploadRun evs) (UploadEv.response (Except.ok u))).err
          = (uploadRun evs).err := by
        simp [uploadStep, h, handleSubmitFinish]
      rw [h2]
      exact he

/-- Witness for C9 (amended): a failed request completing from a concrete
in-flight state shows a non-empty error message. -/
theorem c9_result_error_exclusive_w :
    ¬((uploadStep (uploadRun [UploadEv.setFile (some "a.pdf"), UploadEv.submit])
      (UploadEv.response (Except.error none))).err = "") :=
  (c9_result_error_exclusive.2.2.2.1 [UploadEv.setFile (some "a.pdf"), UploadEv.submit]
    none (by decide)).1

/-- C10: `back()` clears the selection but not the stored navigation
signal, so after `select(k)` (k ≠ HOME) then `back()` the signal still
holds `k`, and a repeated `select(k)` with that same `k` is a complete
no-op — the form does not reopen and the state stays `MENU`. -/
theorem c10_back_keeps_signal (s : SyncState) (key : String) (hk : ¬(key = "HOME")) :
    (backEv (selectEv s key)).forceTitle = some key ∧
    (backEv (selectEv s key)).selected = none ∧
    selectEv (backEv (selectEv s key)) key = backEv (selectEv s key) := by
  have hft : (backEv (selectEv s key)).forceTitle = some key := by
    show (selectEv s key).forceTitle = some key
    rw [selectEv_forceTitle, if_neg hk]
  refine ⟨hft, rfl, ?_⟩
  apply selectEv_fix
  unfold handleNavigate
  rw [if_neg hk]
  exact syncext2 _ _ hft

/-- Witness for C10 at the concrete key "UPLOAD" from the initial state. -/
theorem c10_back_keeps_signal_w :
    (backEv (selectEv syncInit "UPLOAD")).forceTitle = some "UPLOAD" ∧
    (backEv (selectEv syncInit "UPLOAD")).selected = none ∧
    selectEv (backEv (selectEv syncInit "UPLOAD")) "UPLOAD"
      = backEv (selectEv syncInit "UPLOAD") :=
  c10_back_keeps_signal syncInit "UPLOAD" (by decide)

end PdfTools
